import Mathlib

/-!
Shallow embedding of the `createErrorHandler` factory of
express-mongo-error-handler (source: the package entry module).

An error value is an untyped JavaScript object; we model exactly the
attributes the middleware reads.  Reading an absent attribute yields
`undefined`, modelled as `none`; the only operations that throw a
TypeError are `Object.values`, `Object.keys` and `.map`/`.join` applied
to `undefined`, and those spots are modelled explicitly by a `thrown`
outcome.  Logging is modelled as the list of logger invocations
(label, details) performed during one dispatch; the list is computed
unconditionally before the handler chain runs, matching the source
order where the logger call precedes every rule.
-/

/-- A sub-error value inside a ValidationError `errors` mapping: the
middleware reads its `path` and `message` attributes. -/
structure SubError where
  path : Option String := none
  message : Option String := none
deriving DecidableEq

/-- The `errors` attribute of an error value: either a mapping from field
name to sub-error (Mongoose ValidationError shape) or a plain array of
message strings (declared application error shape). -/
inductive ErrorsAttr where
  | mapping (entries : List (String × SubError))
  | list (items : List String)
deriving DecidableEq

/-- One entry of a ZodError `issues` array; `path` is an array of path
segments and may itself be absent on a malformed issue. -/
structure Issue where
  path : Option (List String) := none
  message : Option String := none
deriving DecidableEq

/-- An error value as the middleware observes it: every attribute the
source reads, each optional (`none` models absent/undefined/null).
`isSyntaxError` and `isURIError` model the two instanceof tests and
`hasBody` models the JavaScript test ("body" in err). -/
structure ErrorValue where
  isSyntaxError : Bool := false
  isURIError : Bool := false
  hasBody : Bool := false
  name : Option String := none
  message : Option String := none
  code : Option Int := none
  type : Option String := none
  status : Option Int := none
  statusCode : Option Int := none
  path : Option String := none
  value : Option String := none
  keyPattern : Option (List String) := none
  errors : Option ErrorsAttr := none
  issues : Option (List Issue) := none
  stack : Option String := none
deriving DecidableEq

/-- JavaScript template-literal rendering of a possibly-undefined string. -/
def jsShow : Option String → String
  | none => "undefined"
  | some s => s

/-- JavaScript truthiness of a possibly-undefined string value: absent and
the empty string are falsy. -/
def strTruthy : Option String → Bool
  | none => false
  | some s => !(s == "")

/-- JavaScript truthiness of a possibly-undefined numeric value: absent
and zero are falsy. -/
def intTruthy : Option Int → Bool
  | none => false
  | some n => !(n == 0)

/-- One `{field, message}` entry of a response `errors` array. -/
structure FieldEntry where
  field : Option String
  message : Option String
deriving DecidableEq

/-- The `errors` component of a response body: an array of plain strings
(possibly undefined entries), an array of field entries, or the error
value's own `errors` attribute passed through verbatim by the declared
application error rule. -/
inductive RespErrors where
  | strs (items : List (Option String))
  | fields (entries : List FieldEntry)
  | raw (a : ErrorsAttr)
deriving DecidableEq

/-- A response: the argument of res.status and the JSON body emitted. -/
structure Response where
  status : Int
  success : Bool
  message : Option String
  errors : RespErrors
deriving DecidableEq

/-- Outcome of one middleware invocation: a response, or an uncaught
exception propagating out of the middleware. -/
inductive DispatchOutcome where
  | ok (r : Response)
  | thrown
deriving DecidableEq

/-- Object.values of the modelled `errors` attribute: values of a mapping
in insertion order; for an array, its elements, which are plain strings
and therefore carry no `path` or `message` attributes. -/
def ErrorsAttr.values : ErrorsAttr → List SubError
  | .mapping entries => entries.map Prod.snd
  | .list items => items.map fun _ => {}

/-- The ZodError rule's issues.map body: builds one field entry per issue,
joining the path array with "."; yields `none` (a thrown TypeError) when
some issue lacks its path array. -/
def zodEntries : List Issue → Option (List FieldEntry)
  | [] => some []
  | i :: rest =>
    match i.path with
    | none => none
    | some p =>
      match zodEntries rest with
      | none => none
      | some es =>
        some ({ field := some (String.intercalate "." p), message := i.message } :: es)

/-- The fixed built-in rule chain of the middleware, from the first
instanceof SyntaxError test down to the catch-all, in source order. -/
def builtins (err : ErrorValue) : DispatchOutcome :=
  if err.isSyntaxError && err.status == some 400 && err.hasBody then
    .ok { status := 400, success := false,
          message := some "Invalid JSON payload in request",
          errors := .strs [some "The request body JSON is invalid and could not be parsed"] }
  else if err.type == some "entity.too.large" then
    .ok { status := 413, success := false,
          message := some "JSON payload too large",
          errors := .strs [some "The request body data exceeds the maximum size limit"] }
  else if err.isURIError then
    .ok { status := 400, success := false,
          message := some "Malformed URI",
          errors := .strs [some "The request URL contains invalid or malformed URI components"] }
  else if err.name == some "ValidationError" then
    match err.errors with
    | none => .thrown
    | some a =>
      .ok { status := 400, success := false,
            message := some "Schema validation failed",
            errors := .fields (a.values.map fun e => { field := e.path, message := e.message }) }
  else if err.code == some 11000 then
    match err.keyPattern with
    | none => .thrown
    | some ks =>
      .ok { status := 409, success := false,
            message := some "Duplicate key violation",
            errors := .fields (ks.map fun f =>
              { field := some f,
                message := some ("Record with field '" ++ f ++ "' already exists") }) }
  else if err.name == some "CastError" then
    .ok { status := 400, success := false,
          message := some "Invalid object ID",
          errors := .fields [{ field := err.path,
                               message := some ("Value (" ++ jsShow err.value ++ ") is not valid for " ++ jsShow err.path) }] }
  else if err.name == some "DocumentNotFoundError" then
    .ok { status := 404, success := false,
          message := some "Requested resource not found",
          errors := .strs [some "The record being accessed does not exist in the database"] }
  else if err.name == some "StrictModeError" then
    .ok { status := 400, success := false,
          message := some "Field not defined in schema",
          errors := .fields [{ field := err.path,
                               message := some ("The field '" ++ jsShow err.path ++ "' does not exist in the schema") }] }
  else if err.name == some "VersionError" then
    .ok { status := 409, success := false,
          message := some "Concurrent modification error",
          errors := .fields [{ field := some "_v",
                               message := some "The record being modified has been concurrently modified. Refresh and try again." }] }
  else if err.name == some "ParallelSaveError" then
    .ok { status := 409, success := false,
          message := some "Parallel save error",
          errors := .strs [some "The same document cannot be saved multiple times in parallel"] }
  else if err.name == some "MongooseServerSelectionError" || err.name == some "MongoNetworkError" then
    .ok { status := 503, success := false,
          message := some "Database connection error",
          errors := .strs [some "Unable to connect to MongoDB database server. Please try again later."] }
  else if err.name == some "JsonWebTokenError" then
    .ok { status := 401, success := false,
          message := some "Invalid token",
          errors := .strs [some "Provided token is invalid. Please log in again."] }
  else if err.name == some "TokenExpiredError" then
    .ok { status := 401, success := false,
          message := some "Expired token",
          errors := .strs [some "Your session has expired. Please log in again to refresh."] }
  else if err.name == some "NotBeforeError" then
    .ok { status := 401, success := false,
          message := some "Token not active",
          errors := .strs [some "The token has yet to be activated. Please try again later."] }
  else if err.name == some "ZodError" then
    match err.issues with
    | none => .thrown
    | some issues =>
      match zodEntries issues with
      | none => .thrown
      | some es =>
        .ok { status := 400, success := false,
              message := some "Data validation failed",
              errors := .fields es }
  else if intTruthy err.statusCode then
    .ok { status := err.statusCode.getD 0, success := false,
          message := err.message,
          errors := match err.errors with
                    | some a => .raw a
                    | none => .strs [err.message] }
  else
    .ok { status := 500, success := false,
          message := some "Unexpected error.",
          errors := .strs [some "An unexpected error occurred. Please try again later."] }

/-- What one custom handler does on a given error: raise an exception, or
return a value (none models a falsy return, meaning the chain continues). -/
inductive HandlerOutcome where
  | throws
  | value (r : Option Response)

/-- A custom handler, as observed by the dispatch loop. -/
def Handler := ErrorValue → HandlerOutcome

/-- Identity of the logger callable: the default console.error sink or a
caller-supplied function. -/
inductive Logger where
  | consoleError
  | custom (id : Nat)
deriving DecidableEq

/-- The configuration resolved at construction time. -/
structure Config where
  logErrors : Bool
  exposeStack : Bool
  logger : Logger
  customHandlers : List Handler

/-- The caller-supplied options object; every field may be omitted. -/
structure Options where
  logErrors : Option Bool := none
  exposeStack : Option Bool := none
  logger : Option Logger := none
  customHandlers : Option (List Handler) := none

/-- The environment test of the factory: NODE_ENV equals development or
test (false when unset or any other value). -/
def notProduction (env : Option String) : Bool :=
  env == some "development" || env == some "test"

/-- The factory: resolves options against the defaults exactly once; the
environment is read here and nowhere else (dispatch takes only the
resolved Config). -/
def createErrorHandler (env : Option String) (options : Options) : Config :=
  { logErrors := options.logErrors.getD (notProduction env),
    exposeStack := options.exposeStack.getD false,
    logger := options.logger.getD .consoleError,
    customHandlers := options.customHandlers.getD [] }

/-- The structured summary object passed to the logger. -/
structure LogDetails where
  name : Option String
  code : Option Int
  message : Option String
  stack : Option String
deriving DecidableEq

/-- The fixed diagnostic label passed as first logger argument. -/
def logLabel : String := "The following error occurred:"

/-- The details object built for the logger: name, code and message of the
error, plus the stack only when exposeStack is set and the error carries
a truthy (non-empty) stack attribute. -/
def logDetails (exposeStack : Bool) (err : ErrorValue) : LogDetails :=
  { name := err.name, code := err.code, message := err.message,
    stack := if exposeStack && strTruthy err.stack then err.stack else none }

/-- The custom handler loop: first truthy return wins, a throwing handler
aborts the whole dispatch, and `none` means every handler declined. -/
def runCustom : List Handler → ErrorValue → Option DispatchOutcome
  | [], _ => none
  | h :: rest, err =>
    match h err with
    | .throws => some .thrown
    | .value (some r) => some (.ok r)
    | .value none => runCustom rest err

/-- One invocation of the middleware: the logger invocations performed (in
order, before any rule runs) and the outcome of the handler chain. -/
def dispatch (cfg : Config) (err : ErrorValue) :
    List (String × LogDetails) × DispatchOutcome :=
  (if cfg.logErrors then [(logLabel, logDetails cfg.exposeStack err)] else [],
   match runCustom cfg.customHandlers err with
   | some out => out
   | none => builtins err)

/-- When every custom handler returns a falsy value on the given error, the
custom handler loop yields no outcome. -/
theorem runCustom_all_none (err : ErrorValue) (hs : List Handler)
    (h : ∀ g ∈ hs, g err = .value none) : runCustom hs err = none := by
  induction hs with
  | nil => rfl
  | cons g rest ih =>
    have hg : g err = .value none := h g (List.mem_cons_self g rest)
    have hrest := ih fun g' hg' => h g' (List.mem_cons_of_mem g hg')
    simp [runCustom, hg, hrest]

/-- When every custom handler declines, the outcome of a dispatch is the
outcome of the built-in rule chain. -/
theorem dispatch_snd_eq_builtins (cfg : Config) (err : ErrorValue)
    (h : ∀ g ∈ cfg.customHandlers, g err = .value none) :
    (dispatch cfg err).2 = builtins err := by
  simp [dispatch, runCustom_all_none err cfg.customHandlers h]

/-- When every issue carries its path array, the ZodError field-entry map
succeeds. -/
theorem zodEntries_total (issues : List Issue) (h : ∀ i ∈ issues, i.path.isSome) :
    ∃ es, zodEntries issues = some es := by
  induction issues with
  | nil => exact ⟨[], rfl⟩
  | cons i rest ih =>
    obtain ⟨p, hp⟩ := Option.isSome_iff_exists.mp (h i (List.mem_cons_self i rest))
    obtain ⟨es, hes⟩ := ih fun j hj => h j (List.mem_cons_of_mem i hj)
    exact ⟨{ field := some (String.intercalate "." p), message := i.message } :: es,
           by simp [zodEntries, hp, hes]⟩

/-- The custom handler loop after a prefix of declining handlers behaves as
the loop starting at the first non-declining handler. -/
theorem runCustom_append (err : ErrorValue) (pre : List Handler) (h : Handler)
    (post : List Handler) (hpre : ∀ g ∈ pre, g err = .value none) :
    runCustom (pre ++ h :: post) err =
      match h err with
      | .throws => some .thrown
      | .value (some r) => some (.ok r)
      | .value none => runCustom post err := by
  induction pre with
  | nil => rfl
  | cons g rest ih =>
    have hg : g err = .value none := hpre g (List.mem_cons_self g rest)
    have hrest := ih fun g' hg' => hpre g' (List.mem_cons_of_mem g hg')
    simp [runCustom, hg]
    exact hrest

/-- C9: the client-facing Response never contains the stack. The outcome of
a dispatch is unchanged by the exposeStack setting, and the built-in rule
chain (catch-all included) is unchanged by the stack attribute of the
error, so no field of the body is derived from the stack. -/
theorem stack_not_in_client_response (cfg : Config) (err : ErrorValue)
    (b : Bool) (s : Option String) :
    (dispatch { cfg with exposeStack := b } err).2 = (dispatch cfg err).2 ∧
    builtins { err with stack := s } = builtins err := by
  exact ⟨rfl, rfl⟩

/-- C7: logging gating. When logErrors is false no logger invocation
happens; when logErrors is true the logger is invoked exactly once, before
the handler chain runs (the invocation list is computed independently of
the chain outcome, even a throwing one), with the fixed label and a details
object holding the name, code and message of the error; the details stack
field is populated exactly when exposeStack is set and the error carries a
non-empty stack attribute. -/
theorem logging_gating (cfg : Config) (err : ErrorValue) :
    (dispatch cfg err).1 =
      (if cfg.logErrors then
        [("The following error occurred:",
          ({ name := err.name, code := err.code, message := err.message,
             stack := if cfg.exposeStack && strTruthy err.stack then err.stack else none } : LogDetails))]
       else []) ∧
    ((if cfg.exposeStack && strTruthy err.stack then err.stack else none) ≠ none ↔
      cfg.exposeStack = true ∧ ∃ s, err.stack = some s ∧ s ≠ "") := by
  constructor
  · rfl
  · cases hb : cfg.exposeStack <;> cases hs : err.stack <;> simp [strTruthy, hs]

/-- C6: custom handlers run in array order before any built-in rule; the
first truthy return is the final outcome (regardless of the later handlers
and of every built-in rule), and when every handler returns nothing the
chain continues into the built-in rules. -/
theorem custom_handler_chain (cfg : Config) (err : ErrorValue) :
    (∀ pre h post r, cfg.customHandlers = pre ++ h :: post →
        (∀ g ∈ pre, g err = .value none) → h err = .value (some r) →
        (dispatch cfg err).2 = .ok r) ∧
    ((∀ g ∈ cfg.customHandlers, g err = .value none) →
        (dispatch cfg err).2 = builtins err) := by
  constructor
  · intro pre h post r hsplit hpre hh
    have hrc := runCustom_append err pre h post hpre
    rw [hh] at hrc
    simp only [dispatch, hsplit, hrc]
  · exact dispatch_snd_eq_builtins cfg err

/-- C6 witness: in a chain of a declining handler followed by a responding
handler, the second handler's response is the final outcome. -/
theorem custom_handler_chain_witness :
    (dispatch { logErrors := false, exposeStack := false, logger := .consoleError,
                customHandlers :=
                  [fun _ => .value none,
                   fun _ => .value (some { status := 418, success := false,
                                           message := some "teapot", errors := .strs [] })] } {}).2 =
      .ok { status := 418, success := false, message := some "teapot", errors := .strs [] } := by
  refine (custom_handler_chain _ {}).1 [fun _ => .value none] _ [] _ rfl ?_ rfl
  intro g hg
  rw [List.mem_singleton] at hg
  rw [hg]

/-- C10: a throwing custom handler is not guarded: when it is reached (all
handlers before it decline), the whole dispatch ends in a propagated
exception and no Response is produced, so the always-one-response guarantee
requires every supplied custom handler to be non-throwing. -/
theorem custom_handler_exception_propagates (cfg : Config) (err : ErrorValue)
    (pre : List Handler) (h : Handler) (post : List Handler)
    (hsplit : cfg.customHandlers = pre ++ h :: post)
    (hpre : ∀ g ∈ pre, g err = .value none)
    (hthrow : h err = .throws) :
    (dispatch cfg err).2 = .thrown := by
  have hrc := runCustom_append err pre h post hpre
  rw [hthrow] at hrc
  simp only [dispatch, hsplit, hrc]

/-- C10 witness: a single throwing handler aborts the dispatch. -/
theorem custom_handler_exception_propagates_witness :
    (dispatch { logErrors := false, exposeStack := false, logger := .consoleError,
                customHandlers := [fun _ => .throws] } {}).2 = .thrown := by
  refine custom_handler_exception_propagates _ {} [] (fun _ => .throws) [] rfl ?_ rfl
  intro g hg
  cases hg

/-- C8: configuration defaults. With an empty options object the resolved
configuration logs errors exactly when the environment indicator is
development or test (false when unset or any other value), does not expose
stacks, logs to console.error and has no custom handlers; and once a
logErrors value is supplied the environment no longer influences the
resolved configuration. Resolution is performed by the factory alone:
dispatch receives only the resolved Config, so the environment read cannot
happen per dispatch. -/
theorem config_resolution_defaults :
    (∀ env : Option String,
      createErrorHandler env {} =
        { logErrors := env == some "development" || env == some "test",
          exposeStack := false, logger := .consoleError, customHandlers := [] }) ∧
    (∀ (env env' : Option String) (o : Options) (b : Bool),
      o.logErrors = some b → createErrorHandler env o = createErrorHandler env' o) := by
  constructor
  · intro env
    rfl
  · intro env env' o b hb
    simp [createErrorHandler, hb]

/-- C8 witness: in production the default is silence, and an explicit
logErrors value makes the environment irrelevant. -/
theorem config_resolution_defaults_witness :
    createErrorHandler (some "production") {} =
      { logErrors := false, exposeStack := false, logger := .consoleError,
        customHandlers := [] } ∧
    createErrorHandler (some "development") { logErrors := some false } =
      createErrorHandler none { logErrors := some false } := by
  constructor
  · rw [config_resolution_defaults.1 (some "production")]
    rfl
  · exact config_resolution_defaults.2 (some "development") none _ false rfl

/-- C4: the duplicate-key rule. For an error with code 11000 and a
keyPattern mapping that matches no earlier rule (and with every custom
handler declining), dispatch returns 409 with one field entry per key of
keyPattern, in insertion order. -/
theorem duplicate_key_rule (cfg : Config) (err : ErrorValue) (ks : List String)
    (hhandlers : ∀ g ∈ cfg.customHandlers, g err = .value none)
    (h1 : (err.isSyntaxError && err.status == some 400 && err.hasBody) = false)
    (h2 : (err.type == some "entity.too.large") = false)
    (h3 : err.isURIError = false)
    (h4 : (err.name == some "ValidationError") = false)
    (hcode : err.code = some 11000)
    (hkp : err.keyPattern = some ks) :
    (dispatch cfg err).2 =
      .ok { status := 409, success := false, message := some "Duplicate key violation",
            errors := .fields (ks.map fun f =>
              { field := some f,
                message := some ("Record with field '" ++ f ++ "' already exists") }) } := by
  rw [dispatch_snd_eq_builtins cfg err hhandlers]
  simp [builtins, h1, h2, h3, h4, hcode, hkp]

/-- C4 witness: keyPattern with keys email and username yields exactly the
two entries, in that order. -/
theorem duplicate_key_rule_witness :
    (dispatch (createErrorHandler none {})
        { code := some 11000, keyPattern := some ["email", "username"] }).2 =
      .ok { status := 409, success := false, message := some "Duplicate key violation",
            errors := .fields
              [{ field := some "email",
                 message := some "Record with field 'email' already exists" },
               { field := some "username",
                 message := some "Record with field 'username' already exists" }] } := by
  have h := duplicate_key_rule (createErrorHandler none {})
    { code := some 11000, keyPattern := some ["email", "username"] } ["email", "username"]
    (by intro g hg; cases hg) rfl rfl rfl rfl rfl rfl
  exact h

/-- C3 counterexample: a declared application error carrying an empty
errors array. In the source the guard is a JavaScript truthiness test
(err.errors or [err.message]) and an empty array is truthy, so the empty
array is passed through instead of the claimed singleton [message]. -/
theorem declared_error_rule_counterexample :
    (dispatch (createErrorHandler none { logErrors := some false })
        { statusCode := some 403, message := some "Access denied",
          errors := some (.list []) }).2 =
      .ok { status := 403, success := false, message := some "Access denied",
            errors := .raw (.list []) } ∧
    RespErrors.raw (.list []) ≠ RespErrors.strs [some "Access denied"] := by
  exact ⟨rfl, by simp⟩

/-- C3 (amended): for an error with a truthy statusCode matching no earlier
rule, dispatch returns that statusCode with the error's message, and the
response errors are the error's errors attribute whenever that attribute
is present (even an empty sequence is passed through, empty arrays being
truthy), else the singleton [message]. -/
theorem declared_error_rule_amended (cfg : Config) (err : ErrorValue) (n : Int)
    (hhandlers : ∀ g ∈ cfg.customHandlers, g err = .value none)
    (h1 : (err.isSyntaxError && err.status == some 400 && err.hasBody) = false)
    (h2 : (err.type == some "entity.too.large") = false)
    (h3 : err.isURIError = false)
    (h4 : (err.name == some "ValidationError") = false)
    (h5 : (err.code == some 11000) = false)
    (h6 : (err.name == some "CastError") = false)
    (h7 : (err.name == some "DocumentNotFoundError") = false)
    (h8 : (err.name == some "StrictModeError") = false)
    (h9 : (err.name == some "VersionError") = false)
    (h10 : (err.name == some "MongooseServerSelectionError" || err.name == some "MongoNetworkError") = false)
    (h11 : (err.name == some "ParallelSaveError") = false)
    (h12 : (err.name == some "JsonWebTokenError") = false)
    (h13 : (err.name == some "TokenExpiredError") = false)
    (h14 : (err.name == some "NotBeforeError") = false)
    (h15 : (err.name == some "ZodError") = false)
    (hsc : err.statusCode = some n) (hn : n ≠ 0) :
    (dispatch cfg err).2 =
      .ok { status := n, success := false, message := err.message,
            errors := match err.errors with
                      | some a => .raw a
                      | none => .strs [err.message] } := by
  rw [dispatch_snd_eq_builtins cfg err hhandlers]
  simp [builtins, h1, h2, h3, h4, h5, h6, h7, h8, h9, h10, h11, h12, h13, h14, h15,
        hsc, intTruthy, hn]

/-- C3 witness: the declared-error fallback with no errors attribute yields
the singleton containing the message. -/
theorem declared_error_rule_amended_witness :
    (dispatch (createErrorHandler none {})
        { statusCode := some 403, message := some "Access denied" }).2 =
      .ok { status := 403, success := false, message := some "Access denied",
            errors := .strs [some "Access denied"] } := by
  have h := declared_error_rule_amended (createErrorHandler none {})
    { statusCode := some 403, message := some "Access denied" } 403
    (by intro g hg; cases hg)
    rfl rfl rfl rfl rfl rfl rfl rfl rfl rfl rfl rfl rfl rfl rfl rfl (by decide)
  exact h

/-- C5 counterexample: an error carrying both code 11000 and name
ValidationError but no errors attribute. The ValidationError rule does win,
but it applies Object.values to the absent errors attribute, so the
dispatch throws instead of returning the schema-validation response. -/
theorem validation_precedence_counterexample :
    (dispatch (createErrorHandler none { logErrors := some false })
        { name := some "ValidationError", code := some 11000 }).2 = .thrown := rfl

/-- C5 (amended): an error carrying both code 11000 and name
ValidationError is never classified by the duplicate-key rule: when no
Express-family rule matches, every custom handler declines and the errors
attribute is present, dispatch returns the schema-validation response
(400, Schema validation failed), whatever the code value. -/
theorem validation_precedence_amended (cfg : Config) (err : ErrorValue) (a : ErrorsAttr)
    (hhandlers : ∀ g ∈ cfg.customHandlers, g err = .value none)
    (h1 : (err.isSyntaxError && err.status == some 400 && err.hasBody) = false)
    (h2 : (err.type == some "entity.too.large") = false)
    (h3 : err.isURIError = false)
    (hname : err.name = some "ValidationError")
    (hcode : err.code = some 11000)
    (herrs : err.errors = some a) :
    (dispatch cfg err).2 =
      .ok { status := 400, success := false, message := some "Schema validation failed",
            errors := .fields (a.values.map fun e => { field := e.path, message := e.message }) } := by
  rw [dispatch_snd_eq_builtins cfg err hhandlers]
  simp [builtins, h1, h2, h3, hname, herrs]

/-- C5 witness: both discriminators present with a one-entry errors
mapping; the response is the schema-validation one, not duplicate-key. -/
theorem validation_precedence_amended_witness :
    (dispatch (createErrorHandler none {})
        { name := some "ValidationError", code := some 11000,
          errors := some (.mapping [("email", { path := some "email",
                                                message := some "Email is required" })]) }).2 =
      .ok { status := 400, success := false, message := some "Schema validation failed",
            errors := .fields [{ field := some "email", message := some "Email is required" }] } := by
  have h := validation_precedence_amended (createErrorHandler none {})
    { name := some "ValidationError", code := some 11000,
      errors := some (.mapping [("email", { path := some "email",
                                            message := some "Email is required" })]) }
    (.mapping [("email", { path := some "email", message := some "Email is required" })])
    (by intro g hg; cases hg) rfl rfl rfl rfl rfl rfl
  exact h

/-- C2 counterexample: an error named ZodError without an issues attribute.
The ZodError rule calls .map on the absent attribute, a TypeError, so the
dispatch throws instead of producing a Response with placeholder fields. -/
theorem optional_attribute_access_counterexample :
    (dispatch (createErrorHandler none { logErrors := some false })
        { name := some "ZodError" }).2 = .thrown := rfl

/-- C2 (amended): absent scalar attributes read by a matched rule never
throw (a CastError without path still yields a response with an undefined
placeholder field), but the rules that iterate over an attribute do throw
when it is absent: ValidationError without errors, code 11000 without
keyPattern, and ZodError without issues all end in a propagated TypeError
instead of a Response. -/
theorem optional_attribute_access_amended (cfg : Config) (err : ErrorValue)
    (hhandlers : ∀ g ∈ cfg.customHandlers, g err = .value none)
    (h1 : (err.isSyntaxError && err.status == some 400 && err.hasBody) = false)
    (h2 : (err.type == some "entity.too.large") = false)
    (h3 : err.isURIError = false) :
    (err.name = some "CastError" → (err.code == some 11000) = false → err.path = none →
      (dispatch cfg err).2 =
        .ok { status := 400, success := false, message := some "Invalid object ID",
              errors := .fields [{ field := none,
                                   message := some ("Value (" ++ jsShow err.value ++ ") is not valid for " ++ "undefined") }] }) ∧
    (err.name = some "ValidationError" → err.errors = none →
      (dispatch cfg err).2 = .thrown) ∧
    ((err.name == some "ValidationError") = false → err.code = some 11000 →
      err.keyPattern = none → (dispatch cfg err).2 = .thrown) ∧
    (err.name = some "ZodError" → (err.code == some 11000) = false → err.issues = none →
      (dispatch cfg err).2 = .thrown) := by
  have hb := dispatch_snd_eq_builtins cfg err hhandlers
  refine ⟨?_, ?_, ?_, ?_⟩
  · intro hname hcode hpath
    rw [hb]
    simp [builtins, h1, h2, h3, hname, hcode, hpath, jsShow]
  · intro hname herrs
    rw [hb]
    simp [builtins, h1, h2, h3, hname, herrs]
  · intro hname hcode hkp
    rw [hb]
    simp [builtins, h1, h2, h3, hname, hcode, hkp]
  · intro hname hcode hiss
    rw [hb]
    simp [builtins, h1, h2, h3, hname, hcode, hiss]

/-- C2 witness: a CastError with no path produces the placeholder response
rather than failing the dispatch. -/
theorem optional_attribute_access_amended_witness :
    (dispatch (createErrorHandler none {}) { name := some "CastError" }).2 =
      .ok { status := 400, success := false, message := some "Invalid object ID",
            errors := .fields [{ field := none,
                                 message := some "Value (undefined) is not valid for undefined" }] } := by
  have h := (optional_attribute_access_amended (createErrorHandler none {})
    { name := some "CastError" } (by intro g hg; cases hg) rfl rfl rfl).1 rfl rfl rfl
  exact h

/-- Every response the built-in chain produces has success false, and its
status is at least 400 unless it is the error value's own statusCode
passed through by the declared application error rule. -/
theorem builtins_ok_shape (err : ErrorValue) (r : Response)
    (hr : builtins err = .ok r) :
    r.success = false ∧ (400 ≤ r.status ∨ err.statusCode = some r.status) := by
  unfold builtins at hr
  by_cases h1 : (err.isSyntaxError && err.status == some 400 && err.hasBody) = true
  case pos => simp [h1] at hr; subst hr; exact ⟨rfl, Or.inl (by norm_num)⟩
  by_cases h2 : (err.type == some "entity.too.large") = true
  case pos => simp [h1, h2] at hr; subst hr; exact ⟨rfl, Or.inl (by norm_num)⟩
  by_cases h3 : err.isURIError = true
  case pos => simp [h1, h2, h3] at hr; subst hr; exact ⟨rfl, Or.inl (by norm_num)⟩
  by_cases h4 : (err.name == some "ValidationError") = true
  case pos =>
    cases herr : err.errors with
    | none => simp [h1, h2, h3, h4, herr] at hr
    | some a =>
      simp [h1, h2, h3, h4, herr] at hr
      subst hr
      exact ⟨rfl, Or.inl (by norm_num)⟩
  by_cases h5 : (err.code == some 11000) = true
  case pos =>
    cases hkp : err.keyPattern with
    | none => simp [h1, h2, h3, h4, h5, hkp] at hr
    | some ks =>
      simp [h1, h2, h3, h4, h5, hkp] at hr
      subst hr
      exact ⟨rfl, Or.inl (by norm_num)⟩
  by_cases h6 : (err.name == some "CastError") = true
  case pos => simp [h1, h2, h3, h4, h5, h6] at hr; subst hr; exact ⟨rfl, Or.inl (by norm_num)⟩
  by_cases h7 : (err.name == some "DocumentNotFoundError") = true
  case pos => simp [h1, h2, h3, h4, h5, h6, h7] at hr; subst hr; exact ⟨rfl, Or.inl (by norm_num)⟩
  by_cases h8 : (err.name == some "StrictModeError") = true
  case pos =>
    simp [h1, h2, h3, h4, h5, h6, h7, h8] at hr
    subst hr
    exact ⟨rfl, Or.inl (by norm_num)⟩
  by_cases h9 : (err.name == some "VersionError") = true
  case pos =>
    simp [h1, h2, h3, h4, h5, h6, h7, h8, h9] at hr
    subst hr
    exact ⟨rfl, Or.inl (by norm_num)⟩
  by_cases h10 : (err.name == some "ParallelSaveError") = true
  case pos =>
    simp [h1, h2, h3, h4, h5, h6, h7, h8, h9, h10] at hr
    subst hr
    exact ⟨rfl, Or.inl (by norm_num)⟩
  by_cases h11 : (err.name == some "MongooseServerSelectionError" || err.name == some "MongoNetworkError") = true
  case pos =>
    simp [h1, h2, h3, h4, h5, h6, h7, h8, h9, h10, h11] at hr
    subst hr
    exact ⟨rfl, Or.inl (by norm_num)⟩
  by_cases h12 : (err.name == some "JsonWebTokenError") = true
  case pos =>
    simp [h1, h2, h3, h4, h5, h6, h7, h8, h9, h10, h11, h12] at hr
    subst hr
    exact ⟨rfl, Or.inl (by norm_num)⟩
  by_cases h13 : (err.name == some "TokenExpiredError") = true
  case pos =>
    simp [h1, h2, h3, h4, h5, h6, h7, h8, h9, h10, h11, h12, h13] at hr
    subst hr
    exact ⟨rfl, Or.inl (by norm_num)⟩
  by_cases h14 : (err.name == some "NotBeforeError") = true
  case pos =>
    simp [h1, h2, h3, h4, h5, h6, h7, h8, h9, h10, h11, h12, h13, h14] at hr
    subst hr
    exact ⟨rfl, Or.inl (by norm_num)⟩
  by_cases h15 : (err.name == some "ZodError") = true
  case pos =>
    cases hiss : err.issues with
    | none => simp [h1, h2, h3, h4, h5, h6, h7, h8, h9, h10, h11, h12, h13, h14, h15, hiss] at hr
    | some is =>
      cases hze : zodEntries is with
      | none =>
        simp [h1, h2, h3, h4, h5, h6, h7, h8, h9, h10, h11, h12, h13, h14, h15, hiss, hze] at hr
      | some es =>
        simp [h1, h2, h3, h4, h5, h6, h7, h8, h9, h10, h11, h12, h13, h14, h15, hiss, hze] at hr
        subst hr
        exact ⟨rfl, Or.inl (by norm_num)⟩
  by_cases h16 : intTruthy err.statusCode = true
  case pos =>
    cases hsc : err.statusCode with
    | none => rw [hsc] at h16; simp [intTruthy] at h16
    | some n =>
      rw [hsc] at h16
      cases herr : err.errors with
      | none =>
        simp [h1, h2, h3, h4, h5, h6, h7, h8, h9, h10, h11, h12, h13, h14, h15, h16, hsc, herr] at hr
        subst hr
        exact ⟨rfl, Or.inr (by simp [hsc])⟩
      | some a =>
        simp [h1, h2, h3, h4, h5, h6, h7, h8, h9, h10, h11, h12, h13, h14, h15, h16, hsc, herr] at hr
        subst hr
        exact ⟨rfl, Or.inr (by simp [hsc])⟩
  simp [h1, h2, h3, h4, h5, h6, h7, h8, h9, h10, h11, h12, h13, h14, h15, h16] at hr
  subst hr
  exact ⟨rfl, Or.inl (by norm_num)⟩

/-- The built-in chain cannot throw once the three iterated attributes
exist where their rule reads them. -/
theorem builtins_no_throw (err : ErrorValue)
    (hval : err.name = some "ValidationError" → err.errors.isSome)
    (hdup : err.code = some 11000 → err.keyPattern.isSome)
    (hzod : err.name = some "ZodError" →
      ∃ issues, err.issues = some issues ∧ ∀ i ∈ issues, i.path.isSome) :
    builtins err ≠ .thrown := by
  intro contra
  unfold builtins at contra
  by_cases h1 : (err.isSyntaxError && err.status == some 400 && err.hasBody) = true
  case pos => simp [h1] at contra
  by_cases h2 : (err.type == some "entity.too.large") = true
  case pos => simp [h1, h2] at contra
  by_cases h3 : err.isURIError = true
  case pos => simp [h1, h2, h3] at contra
  by_cases h4 : (err.name == some "ValidationError") = true
  case pos =>
    cases herr : err.errors with
    | none =>
      have hsome := hval (by simpa using h4)
      rw [herr] at hsome
      simp at hsome
    | some a => simp [h1, h2, h3, h4, herr] at contra
  by_cases h5 : (err.code == some 11000) = true
  case pos =>
    cases hkp : err.keyPattern with
    | none =>
      have hsome := hdup (by simpa using h5)
      rw [hkp] at hsome
      simp at hsome
    | some ks => simp [h1, h2, h3, h4, h5, hkp] at contra
  by_cases h6 : (err.name == some "CastError") = true
  case pos => simp [h1, h2, h3, h4, h5, h6] at contra
  by_cases h7 : (err.name == some "DocumentNotFoundError") = true
  case pos => simp [h1, h2, h3, h4, h5, h6, h7] at contra
  by_cases h8 : (err.name == some "StrictModeError") = true
  case pos => simp [h1, h2, h3, h4, h5, h6, h7, h8] at contra
  by_cases h9 : (err.name == some "VersionError") = true
  case pos => simp [h1, h2, h3, h4, h5, h6, h7, h8, h9] at contra
  by_cases h10 : (err.name == some "ParallelSaveError") = true
  case pos => simp [h1, h2, h3, h4, h5, h6, h7, h8, h9, h10] at contra
  by_cases h11 : (err.name == some "MongooseServerSelectionError" || err.name == some "MongoNetworkError") = true
  case pos => simp [h1, h2, h3, h4, h5, h6, h7, h8, h9, h10, h11] at contra
  by_cases h12 : (err.name == some "JsonWebTokenError") = true
  case pos => simp [h1, h2, h3, h4, h5, h6, h7, h8, h9, h10, h11, h12] at contra
  by_cases h13 : (err.name == some "TokenExpiredError") = true
  case pos => simp [h1, h2, h3, h4, h5, h6, h7, h8, h9, h10, h11, h12, h13] at contra
  by_cases h14 : (err.name == some "NotBeforeError") = true
  case pos => simp [h1, h2, h3, h4, h5, h6, h7, h8, h9, h10, h11, h12, h13, h14] at contra
  by_cases h15 : (err.name == some "ZodError") = true
  case pos =>
    cases hiss : err.issues with
    | none =>
      obtain ⟨is2, his2, hpaths⟩ := hzod (by simpa using h15)
      rw [hiss] at his2
      simp at his2
    | some is =>
      cases hze : zodEntries is with
      | none =>
        obtain ⟨is2, his2, hpaths⟩ := hzod (by simpa using h15)
        rw [hiss] at his2
        injection his2 with hinj
        subst hinj
        obtain ⟨es, hes⟩ := zodEntries_total _ hpaths
        rw [hze] at hes
        simp at hes
      | some es =>
        simp [h1, h2, h3, h4, h5, h6, h7, h8, h9, h10, h11, h12, h13, h14, h15, hiss, hze] at contra
  by_cases h16 : intTruthy err.statusCode = true
  case pos =>
    simp [h1, h2, h3, h4, h5, h6, h7, h8, h9, h10, h11, h12, h13, h14, h15, h16] at contra
  simp [h1, h2, h3, h4, h5, h6, h7, h8, h9, h10, h11, h12, h13, h14, h15, h16] at contra

/-- The built-in chain is total when the iterated attributes are present
where needed: exactly one response, success false, and a status at least
400 unless passed through from the statusCode attribute. -/
theorem builtins_total (err : ErrorValue)
    (hval : err.name = some "ValidationError" → err.errors.isSome)
    (hdup : err.code = some 11000 → err.keyPattern.isSome)
    (hzod : err.name = some "ZodError" →
      ∃ issues, err.issues = some issues ∧ ∀ i ∈ issues, i.path.isSome) :
    ∃ r, builtins err = .ok r ∧ r.success = false ∧
      (400 ≤ r.status ∨ err.statusCode = some r.status) := by
  cases hout : builtins err with
  | thrown => exact absurd hout (builtins_no_throw err hval hdup hzod)
  | ok r => exact ⟨r, rfl, builtins_ok_shape err r hout⟩

/-- C1 counterexample: totality as claimed fails twice. A declared
application error with statusCode 200 produces a response whose status is
below 400 (the truthy statusCode is passed through verbatim), and a value
with code 11000 but no keyPattern makes the dispatch throw, producing no
Response at all. -/
theorem dispatch_totality_counterexample :
    ((dispatch (createErrorHandler none { logErrors := some false })
        { statusCode := some 200, message := some "fine" }).2 =
      .ok { status := 200, success := false, message := some "fine",
            errors := .strs [some "fine"] } ∧ ¬ (400 ≤ (200 : Int))) ∧
    (dispatch (createErrorHandler none { logErrors := some false })
        { code := some 11000 }).2 = .thrown := by
  exact ⟨⟨rfl, by norm_num⟩, rfl⟩

/-- C1 (amended): dispatch yields exactly one Response with success false
whenever every custom handler declines and the iterated attributes exist
where their rule reads them (errors for ValidationError, keyPattern for
code 11000, path-bearing issues for ZodError); the status is at least 400
except when it is the error value's own truthy statusCode, which is
passed through verbatim. -/
theorem dispatch_totality_amended (cfg : Config) (err : ErrorValue)
    (hhandlers : ∀ g ∈ cfg.customHandlers, g err = .value none)
    (hval : err.name = some "ValidationError" → err.errors.isSome)
    (hdup : err.code = some 11000 → err.keyPattern.isSome)
    (hzod : err.name = some "ZodError" →
      ∃ issues, err.issues = some issues ∧ ∀ i ∈ issues, i.path.isSome) :
    ∃ r, (dispatch cfg err).2 = .ok r ∧ r.success = false ∧
      (400 ≤ r.status ∨ err.statusCode = some r.status) := by
  rw [dispatch_snd_eq_builtins cfg err hhandlers]
  exact builtins_total err hval hdup hzod

/-- C1 witness: the empty error object under the default configuration
falls to the catch-all and yields one 500 response with success false. -/
theorem dispatch_totality_amended_witness :
    ∃ r, (dispatch (createErrorHandler none {}) {}).2 = .ok r ∧ r.success = false ∧
      (400 ≤ r.status ∨ ({} : ErrorValue).statusCode = some r.status) := by
  exact dispatch_totality_amended (createErrorHandler none {}) {}
    (by intro g hg; cases hg)
    (by intro h; simp at h)
    (by intro h; simp at h)
    (by intro h; simp at h)
